import Mathlib

/-!
# cs408-go-stack: a one-route gin server rendering one template

Shallow embedding of `main.go` (`main`, `handleIndex`, the package variable
`templates`) together with the parts of the libraries it calls that decide
what a client observes:

* `html/template`: `ParseFiles`, `Must`, `ExecuteTemplate`;
* gin: `responseWriter`, `Default`, `GET`, `ServeHTTP` and the handler chain;
* `net/http/httptest`: the `ResponseRecorder` the test reads status and body from.

The two template files are not part of the sources, and the template engine is
a library, so a compiled template is represented by what `ExecuteTemplate`
does with it, and the parser and the file system are inputs of `main`.
-/

namespace GoStack

/-! ## html/template -/

/-- The type gin.H, a `map[string]any`; the program only stores strings in it. -/
abbrev H := List (String × String)

/-- What one call of `ExecuteTemplate` does: the byte chunks it hands to the
writer, in order, and the error it returns (`none` for `nil`). An execution
that fails part-way has written a beginning of its output and returns an error. -/
structure ExecResult where
  chunks : List String
  err : Option String

/-- A compiled `*template.Template` (never nil), given by the behaviour of its
method `ExecuteTemplate(w, name, data)`. -/
structure Template where
  ExecuteTemplate : String → H → ExecResult

/-- A Go `map[string]*template.Template`, as an association list without
significance of order. The nil map and the empty map are both `[]`: reading
either gives the zero value. -/
abbrev TemplateMap := List (String × Template)

/-- The read `m[k]`: `none` is the nil pointer a missing key yields. -/
def mapIndex (m : TemplateMap) (k : String) : Option Template :=
  m.lookup k

/-- The assignment `m[k] = t`. -/
def mapAssign (m : TemplateMap) (k : String) (t : Template) : TemplateMap :=
  (k, t) :: m.filter (fun e => e.1 != k)

/-- The keys of a map. -/
def mapKeys (m : TemplateMap) : List String :=
  m.map Prod.fst

/-- The files `ParseFiles` can read: the content of a path, `none` when
`os.ReadFile` fails (for instance because the file is missing). -/
abbrev FileSystem := String → Option String

/-- The method `(*Template).Parse` of html/template, an input of the model:
`Parse t name text` parses `text` as the template `name`, associated with the
set `t` built so far (`none` before the first file), and returns the enlarged
set or the parse error. -/
structure Parser where
  Parse : Option Template → String → String → Except String Template

/-- The function `filepath.Base` for slash-separated paths: trailing slashes
are dropped, then the last element is returned (`.` for the empty path, `/` for
a path of slashes only). -/
def Base (path : String) : String :=
  let stripped := (path.data.reverse.dropWhile (fun ch => ch == '/')).reverse
  let last := (stripped.reverse.takeWhile (fun ch => ch != '/')).reverse
  if path.data.isEmpty then "." else if last.isEmpty then "/" else String.mk last

/-- The loop of html/template `parseFiles`: read each file, parse it under its
base name, stop at the first failure. -/
def parseFiles (p : Parser) (fs : FileSystem) :
    Option Template → List String → Except String (Option Template)
  | t, [] => .ok t
  | t, filename :: rest =>
    match fs filename with
    | none => .error ("open " ++ filename ++ ": no such file or directory")
    | some s =>
      match p.Parse t (Base filename) s with
      | .error e => .error e
      | .ok t' => parseFiles p fs (some t') rest

/-- The function `template.ParseFiles(filenames...)`. -/
def ParseFiles (p : Parser) (fs : FileSystem) (filenames : List String) :
    Except String Template :=
  match filenames with
  | [] => .error "html/template: no files named in call to ParseFiles"
  | _ :: _ =>
    match parseFiles p fs none filenames with
    | .error e => .error e
    | .ok none => .error "html/template: no files named in call to ParseFiles"
    | .ok (some t) => .ok t

/-- Result of a Go call that may panic: the value, or the panic value. -/
inductive Panics (α : Type) where
  | returns (a : α)
  | panics (value : String)

/-- The function `template.Must(t, err)`: panics when `err` is not nil. -/
def Must (r : Except String Template) : Panics Template :=
  match r with
  | .error e => .panics e
  | .ok t => .returns t

/-! ## net/http and httptest -/

/-- An `*http.Request`, reduced to the fields a handler or the router can read. -/
structure Request where
  Method : String
  Path : String
  RawQuery : String
  Header : List (String × String)
  Body : String

/-- A call received by the `http.ResponseWriter` that gin wraps. -/
inductive WireEvent where
  | WriteHeader (code : Int)
  | Write (data : String)

/-- The `httptest.ResponseRecorder` of the test. -/
structure ResponseRecorder where
  Code : Int
  Body : String
  wroteHeader : Bool

/-- The function `httptest.NewRecorder()`. -/
def NewRecorder : ResponseRecorder :=
  { Code := 200, Body := "", wroteHeader := false }

/-- The method `(*ResponseRecorder).WriteHeader`: only the first call counts. -/
def ResponseRecorder.WriteHeader (rw : ResponseRecorder) (code : Int) : ResponseRecorder :=
  if rw.wroteHeader then rw else { rw with Code := code, wroteHeader := true }

/-- The method `(*ResponseRecorder).Write`: an implicit `WriteHeader(200)` when
no header was written, then the bytes are appended. -/
def ResponseRecorder.Write (rw : ResponseRecorder) (buf : String) : ResponseRecorder :=
  let rw1 := if rw.wroteHeader then rw else rw.WriteHeader 200
  { rw1 with Body := rw1.Body ++ buf }

/-- The recorder after receiving the given calls in order. -/
def record (events : List WireEvent) : ResponseRecorder :=
  events.foldl
    (fun rw e =>
      match e with
      | .WriteHeader code => rw.WriteHeader code
      | .Write data => rw.Write data)
    NewRecorder

/-! ## gin: response writer -/

/-- The constant `noWritten` of gin. -/
def noWritten : Int := -1

/-- The constant `defaultStatus` of gin. -/
def defaultStatus : Int := 200

/-- The `responseWriter` of gin: the calls it has forwarded to the wrapped
`http.ResponseWriter` (oldest first), the number of body bytes written
(`noWritten` before the header is sent) and the pending status. -/
structure responseWriter where
  ResponseWriter : List WireEvent
  size : Int
  status : Int

/-- The method `reset`: the writer every request starts with. -/
def responseWriter.reset : responseWriter :=
  { ResponseWriter := [], size := noWritten, status := defaultStatus }

/-- The method `Written`. -/
def responseWriter.Written (w : responseWriter) : Bool :=
  w.size != noWritten

/-- The method `WriteHeader`: records the status, unless the header is already
sent (then gin only prints a warning). -/
def responseWriter.WriteHeader (w : responseWriter) (code : Int) : responseWriter :=
  if code > 0 && w.status != code then
    if w.Written then w else { w with status := code }
  else w

/-- The method `WriteHeaderNow`: sends the pending status if none was sent. -/
def responseWriter.WriteHeaderNow (w : responseWriter) : responseWriter :=
  if !w.Written then
    { w with size := 0, ResponseWriter := w.ResponseWriter ++ [WireEvent.WriteHeader w.status] }
  else w

/-- The method `Write`: sends the header if needed, then the bytes. -/
def responseWriter.Write (w : responseWriter) (data : String) : responseWriter :=
  let w1 := w.WriteHeaderNow
  { w1 with
    ResponseWriter := w1.ResponseWriter ++ [WireEvent.Write data]
    size := w1.size + data.utf8ByteSize }

/-! ## gin: context and handlers -/

/-- The `gin.Context` fields a handler of this program touches. -/
structure Context where
  Request : Request
  Writer : responseWriter

/-- The package-level variables of `main.go`. -/
structure Globals where
  templates : TemplateMap

/-- State after a handler ran: package variables, context, and the panic that
is unwinding through the caller, if any. -/
structure HandlerResult where
  globals : Globals
  ctx : Context
  panic : Option String

/-- The type `gin.HandlerFunc`, with the package variables made explicit. -/
abbrev HandlerFunc := Globals → Context → HandlerResult

/-- An element of a `HandlersChain`: either a handler that returns without
calling `c.Next()`, or a middleware, which receives as argument what its call of
`c.Next()` runs (the rest of the chain). -/
inductive Handler where
  | plain (h : HandlerFunc)
  | middleware (m : HandlerFunc → HandlerFunc)

/-- The method `c.Next()` on a chain: run the handlers in order; a panic stops
the chain and unwinds. -/
def Next : List Handler → HandlerFunc
  | [] => fun g c => { globals := g, ctx := c, panic := none }
  | .plain h :: rest => fun g c =>
    let r := h g c
    match r.panic with
    | some _ => r
    | none => Next rest r.globals r.ctx
  | .middleware m :: rest => m (Next rest)

/-- The method `c.AbortWithStatus(code)`: `WriteHeader(code)`, `WriteHeaderNow()`. -/
def AbortWithStatus (c : Context) (code : Int) : Context :=
  { c with Writer := (c.Writer.WriteHeader code).WriteHeaderNow }

/-- The middleware `gin.Logger()`: runs the rest of the chain; what it prints
goes to standard output, not to the response. -/
def Logger : HandlerFunc → HandlerFunc :=
  fun next => next

/-- The middleware `gin.Recovery()`: runs the rest of the chain and answers a
panic with `AbortWithStatus(500)`. -/
def Recovery : HandlerFunc → HandlerFunc :=
  fun next g c =>
    let r := next g c
    match r.panic with
    | some _ => { r with ctx := AbortWithStatus r.ctx 500, panic := none }
    | none => r

/-! ## main.go: the handler -/

/-- The function `handleIndex` of main.go. -/
def handleIndex : HandlerFunc := fun g c =>
  let w := c.Writer.WriteHeader 200
  match mapIndex g.templates "index" with
  | none =>
    { globals := g, ctx := { c with Writer := w },
      panic := some "runtime error: invalid memory address or nil pointer dereference" }
  | some t =>
    let r := t.ExecuteTemplate "layout" [("Title", "Hello World")]
    { globals := g, ctx := { c with Writer := r.chunks.foldl responseWriter.Write w },
      panic := none }

/-! ## gin: engine and routing -/

/-- A node of the routing tree of gin. Only leaves are represented (no
children, no wildcard child): the trees of this program consist of one root. -/
structure node where
  path : String
  handlers : List Handler

/-- The type `methodTree` of gin. -/
structure methodTree where
  method : String
  root : node

/-- The type `nodeValue` of gin: the handlers found (empty for nil) and the
trailing-slash-redirect recommendation. -/
structure nodeValue where
  handlers : List Handler
  tsr : Bool

/-- The method `(*node).getValue` of gin on a leaf `n`. Go slices strings by
bytes and the model by characters; for the ASCII paths registered here both
select the same part. The three cases are, in the order of the source: `path`
is longer than the node path and starts with it; `path` is the node path;
neither. -/
def node.getValue (n : node) (path : String) : nodeValue :=
  let pfx := n.path
  if path.length > pfx.length && path.data.take pfx.length == pfx.data then
    let rest := path.data.drop pfx.length
    { handlers := [], tsr := rest == ['/'] && !n.handlers.isEmpty }
  else if path == pfx then
    { handlers := n.handlers, tsr := false }
  else
    { handlers := [],
      tsr := path == "/" ||
        (pfx.length == path.length + 1 && pfx.data.get? path.length == some '/' &&
          path.data == pfx.data.take (pfx.length - 1) && !n.handlers.isEmpty) }

/-- The `gin.Engine`: the middleware of the root group, the one routing option
that `gin.New()` switches on, and the method trees. The options `gin.New()`
leaves off (`RedirectFixedPath`, `HandleMethodNotAllowed`, `UseRawPath`,
`RemoveExtraSlash`) and the branches they guard are left out. -/
structure Engine where
  Handlers : List Handler
  RedirectTrailingSlash : Bool
  trees : List methodTree

/-- The function `gin.New()`. -/
def New : Engine :=
  { Handlers := [], RedirectTrailingSlash := true, trees := [] }

/-- The method `engine.Use(middleware...)`. -/
def Engine.Use (engine : Engine) (middleware : List Handler) : Engine :=
  { engine with Handlers := engine.Handlers ++ middleware }

/-- The function `gin.Default()`: `New()` with `Logger()` and `Recovery()`. -/
def Default : Engine :=
  New.Use [Handler.middleware Logger, Handler.middleware Recovery]

/-- The method `engine.addRoute` for a method that has no tree yet: a tree
whose root carries the path and the handlers is appended. Insertion into an
existing tree is not represented (the engine is returned as it is); `main`
registers a single route. -/
def Engine.addRoute (engine : Engine) (method path : String) (handlers : List Handler) :
    Engine :=
  match engine.trees.find? (fun t => t.method == method) with
  | some _ => engine
  | none =>
    { engine with
      trees := engine.trees ++ [{ method := method, root := { path := path, handlers := handlers } }] }

/-- The method `router.GET(relativePath, handler)`: the group middleware
followed by the handler is registered for the method GET. -/
def Engine.GET (engine : Engine) (relativePath : String) (handler : HandlerFunc) : Engine :=
  engine.addRoute "GET" relativePath (engine.Handlers ++ [Handler.plain handler])

/-- The function `serveError` of gin with the chain `allNoRoute` (the
middleware alone): set the status, run the chain, write the default message
unless something was written or the status was changed. -/
def serveError (engine : Engine) (g : Globals) (c : Context) (code : Int)
    (defaultMessage : String) : HandlerResult :=
  let r := Next engine.Handlers g { c with Writer := { c.Writer with status := code } }
  match r.panic with
  | some _ => r
  | none =>
    if r.ctx.Writer.Written then r
    else if r.ctx.Writer.status == code then
      { r with ctx := { r.ctx with Writer := r.ctx.Writer.Write defaultMessage } }
    else
      { r with ctx := { r.ctx with Writer := r.ctx.Writer.WriteHeaderNow } }

/-- The functions `redirectTrailingSlash` and `redirectRequest` of gin:
`http.Redirect` with 301 for GET and 307 otherwise, then `WriteHeaderNow`.
Only the status is represented, not the Location header nor the short HTML
note that `http.Redirect` adds. -/
def redirectTrailingSlash (g : Globals) (c : Context) : HandlerResult :=
  let code : Int := if c.Request.Method == "GET" then 301 else 307
  { globals := g, ctx := { c with Writer := (c.Writer.WriteHeader code).WriteHeaderNow },
    panic := none }

/-- The method `engine.handleHTTPRequest`: the first tree of the request method
is searched; a match runs the chain and then `WriteHeaderNow`; otherwise a
trailing-slash recommendation redirects (except for CONNECT and for the path
`/`), and everything else is answered 404. -/
def Engine.handleHTTPRequest (engine : Engine) (g : Globals) (c : Context) : HandlerResult :=
  match engine.trees.find? (fun t => t.method == c.Request.Method) with
  | none => serveError engine g c 404 "404 page not found"
  | some t =>
    let value := t.root.getValue c.Request.Path
    if !value.handlers.isEmpty then
      let r := Next value.handlers g c
      match r.panic with
      | some _ => r
      | none => { r with ctx := { r.ctx with Writer := r.ctx.Writer.WriteHeaderNow } }
    else if c.Request.Method != "CONNECT" && c.Request.Path != "/" &&
        value.tsr && engine.RedirectTrailingSlash then
      redirectTrailingSlash g c
    else
      serveError engine g c 404 "404 page not found"

/-- The method `engine.ServeHTTP(w, req)`: a context with a reset writer, then
`handleHTTPRequest`. -/
def Engine.ServeHTTP (engine : Engine) (g : Globals) (req : Request) : HandlerResult :=
  engine.handleHTTPRequest g { Request := req, Writer := responseWriter.reset }

/-! ## main.go: startup -/

/-- The process while `main` runs: the package variables, the local `router`
(`none` before `gin.Default()` is called) and the address the listener is bound
to (`none` before `router.Run` binds it). -/
structure Process where
  globals : Globals
  router : Option Engine
  listening : Option String

/-- An execution of `main`: the process state after each statement, in program
order, and the panic that ended it, if any. -/
structure Startup where
  states : List Process
  panic : Option String

/-- The function `main` of main.go. Its inputs are the template parser, the
file system, and whether port 3000 can be bound. -/
def main (p : Parser) (fs : FileSystem) (portFree : Bool) : Startup :=
  -- templates = make(map[string]*template.Template)
  let s0 : Process := { globals := { templates := [] }, router := none, listening := none }
  match Must (ParseFiles p fs ["templates/layout.html", "templates/index.html"]) with
  | .panics e => { states := [s0], panic := some e }
  | .returns t =>
    -- templates["index"] = ...
    let s1 : Process := { s0 with globals := { templates := mapAssign s0.globals.templates "index" t } }
    -- router := gin.Default()
    let router := Default
    let s2 : Process := { s1 with router := some router }
    -- router.GET("/", handleIndex)
    let router := router.GET "/" handleIndex
    let s3 : Process := { s2 with router := some router }
    -- router.Run(":3000")
    if portFree then
      { states := [s0, s1, s2, s3, { s3 with listening := some ":3000" }], panic := none }
    else
      { states := [s0, s1, s2, s3], panic := none }

/-- The router `main` builds: `gin.Default()` with the route GET `/`. -/
def mainRouter : Engine :=
  Default.GET "/" handleIndex

/-! ## Serving -/

/-- What the client reads from a finished exchange: the recorder fed with the
calls the gin writer forwarded. -/
def response (r : HandlerResult) : ResponseRecorder :=
  record r.ctx.Writer.ResponseWriter

/-- One request served by a process: a listening process with a router hands
the request to `ServeHTTP`; any other process answers nothing. -/
def serve (s : Process) (req : Request) : Process × Option ResponseRecorder :=
  match s.listening, s.router with
  | some _, some engine =>
    let r := engine.ServeHTTP s.globals req
    ({ s with globals := r.globals }, some (response r))
  | _, _ => (s, none)

/-- The states a process goes through once `main` has started the listener:
the last state of a successful startup, and every state that serving a request
leads to. -/
inductive Reachable (p : Parser) (fs : FileSystem) : Process → Prop where
  | started (s : Process) :
      (main p fs true).panic = none → (main p fs true).states.getLast? = some s →
      Reachable p fs s
  | served (s : Process) (req : Request) :
      Reachable p fs s → Reachable p fs (serve s req).1

/-- The function `strings.Contains`. -/
def Contains (s substr : String) : Bool :=
  decide (substr.data <:+: s.data)

/-- The chain of the one route: the two middleware of `gin.Default()`, then
`handleIndex`. -/
def indexChain : List Handler :=
  [Handler.middleware Logger, Handler.middleware Recovery, Handler.plain handleIndex]

/-- The two files `main` passes to `ParseFiles`. -/
def templateFiles : List String :=
  ["templates/layout.html", "templates/index.html"]

/-- The process once `main` has loaded the template `t`, built the router and
bound the port. -/
def listeningState (t : Template) : Process :=
  { globals := { templates := [("index", t)] }, router := some mainRouter,
    listening := some ":3000" }

/-! ## Concrete inputs used to instantiate the theorems -/

/-- A template whose block `layout` prints the value of Title inside a
heading, and which has no other block. -/
def greeting : Template :=
  { ExecuteTemplate := fun name data =>
      if name == "layout" then
        { chunks := ["<h1>", (data.lookup "Title").getD "", "</h1>"], err := none }
      else
        { chunks := [], err := some "html/template: block is undefined" } }

/-- A template whose execution stops with an error after the opening of the
document has been written. -/
def truncated : Template :=
  { ExecuteTemplate := fun _ _ =>
      { chunks := ["<html><head><title>"], err := some "template: error calling a function" } }

/-- A parser that accepts every non-empty text and rejects the empty one. -/
def sampleParser : Parser :=
  { Parse := fun _ _ text =>
      if text.isEmpty then Except.error "template: empty source" else Except.ok greeting }

/-- A file system that holds the two template files. -/
def sampleFiles : FileSystem := fun path =>
  if path == "templates/layout.html" then some "<html>...</html>"
  else if path == "templates/index.html" then some "<h1>...</h1>"
  else none

/-- A file system without any file. -/
def noFiles : FileSystem := fun _ => none

/-- The request of the test: GET `/` without headers or body. -/
def getRoot : Request :=
  { Method := "GET", Path := "/", RawQuery := "", Header := [], Body := "" }

/-- A GET request for `/` with a query string, a header and a body. -/
def getRootBusy : Request :=
  { Method := "GET", Path := "/", RawQuery := "lang=en", Header := [("Accept", "text/html")],
    Body := "ignored" }

/-- A GET request for the path `//`. -/
def getDoubleSlash : Request :=
  { Method := "GET", Path := "//", RawQuery := "", Header := [], Body := "" }

/-- A GET request for the path `/nonexistent`. -/
def getNonexistent : Request :=
  { Method := "GET", Path := "/nonexistent", RawQuery := "", Header := [], Body := "" }

/-! ## Lemmas on the response writer and the recorder -/

theorem Write_sent (w : responseWriter) (d : String) (h : 0 ≤ w.size) :
    (w.Write d).ResponseWriter = w.ResponseWriter ++ [WireEvent.Write d] ∧
      (w.Write d).status = w.status ∧ 0 ≤ (w.Write d).size := by
  have hne : w.size ≠ -1 := by omega
  simp [responseWriter.Write, responseWriter.WriteHeaderNow, responseWriter.Written,
    noWritten, hne]
  omega

theorem WriteHeaderNow_sent (w : responseWriter) (h : 0 ≤ w.size) :
    w.WriteHeaderNow = w := by
  have hne : w.size ≠ -1 := by omega
  simp [responseWriter.WriteHeaderNow, responseWriter.Written, noWritten, hne]

theorem Write_unsent (w : responseWriter) (d : String) (h : w.size = -1) :
    (w.Write d).ResponseWriter =
        w.ResponseWriter ++ [WireEvent.WriteHeader w.status, WireEvent.Write d] ∧
      (w.Write d).status = w.status ∧ 0 ≤ (w.Write d).size := by
  simp [responseWriter.Write, responseWriter.WriteHeaderNow, responseWriter.Written,
    noWritten, h]

theorem foldl_Write_sent (chunks : List String) (w : responseWriter) (h : 0 ≤ w.size) :
    (chunks.foldl responseWriter.Write w).ResponseWriter =
        w.ResponseWriter ++ chunks.map WireEvent.Write ∧
      (chunks.foldl responseWriter.Write w).status = w.status ∧
      0 ≤ (chunks.foldl responseWriter.Write w).size := by
  induction chunks generalizing w with
  | nil => simp [h]
  | cons d rest ih =>
    obtain ⟨h1, h2, h3⟩ := Write_sent w d h
    obtain ⟨k1, k2, k3⟩ := ih (w.Write d) h3
    simp [List.foldl_cons, k1, k2, k3, h1, h2]

theorem foldl_Write_unsent (d : String) (rest : List String) (w : responseWriter)
    (h : w.size = -1) :
    ((d :: rest).foldl responseWriter.Write w).ResponseWriter =
        w.ResponseWriter ++ WireEvent.WriteHeader w.status :: (d :: rest).map WireEvent.Write ∧
      ((d :: rest).foldl responseWriter.Write w).status = w.status ∧
      0 ≤ ((d :: rest).foldl responseWriter.Write w).size := by
  obtain ⟨h1, h2, h3⟩ := Write_unsent w d h
  obtain ⟨k1, k2, k3⟩ := foldl_Write_sent rest (w.Write d) h3
  simp [List.foldl_cons, k1, k2, k3, h1, h2]

/-- Writing chunks to an unsent writer and then calling `WriteHeaderNow` forwards
the pending status first and then every chunk. -/
theorem foldl_Write_then_now (chunks : List String) (w : responseWriter) (h : w.size = -1) :
    ((chunks.foldl responseWriter.Write w).WriteHeaderNow).ResponseWriter =
        w.ResponseWriter ++ WireEvent.WriteHeader w.status :: chunks.map WireEvent.Write ∧
      ((chunks.foldl responseWriter.Write w).WriteHeaderNow).status = w.status := by
  cases chunks with
  | nil =>
    simp [responseWriter.WriteHeaderNow, responseWriter.Written, noWritten, h]
  | cons d rest =>
    obtain ⟨k1, k2, k3⟩ := foldl_Write_unsent d rest w h
    rw [WriteHeaderNow_sent _ k3]
    exact ⟨k1, k2⟩

theorem record_writes (chunks : List String) (rw : ResponseRecorder)
    (h : rw.wroteHeader = true) :
    (chunks.map WireEvent.Write).foldl
        (fun rw e =>
          match e with
          | .WriteHeader code => rw.WriteHeader code
          | .Write data => rw.Write data) rw =
      { Code := rw.Code, Body := chunks.foldl (fun r s => r ++ s) rw.Body, wroteHeader := true } := by
  induction chunks generalizing rw with
  | nil => cases rw; simp_all
  | cons d rest ih =>
    have hw : (rw.Write d).wroteHeader = true := by simp [ResponseRecorder.Write, h]
    simp only [List.map_cons, List.foldl_cons]
    rw [ih (rw.Write d) hw]
    simp [ResponseRecorder.Write, h]

/-- The recorder after a header and a sequence of writes: the code of the
header and the concatenation of the chunks. -/
theorem record_header_writes (code : Int) (chunks : List String) :
    record (WireEvent.WriteHeader code :: chunks.map WireEvent.Write) =
      { Code := code, Body := String.join chunks, wroteHeader := true } := by
  unfold record
  rw [List.foldl_cons]
  have h := record_writes chunks (NewRecorder.WriteHeader code)
    (by simp [NewRecorder, ResponseRecorder.WriteHeader])
  simp only [] at h ⊢
  rw [h]
  simp [NewRecorder, ResponseRecorder.WriteHeader, String.join]

/-! ## Lemmas on the handler and the router -/

theorem mainRouter_eq :
    mainRouter =
      { Handlers := [Handler.middleware Logger, Handler.middleware Recovery],
        RedirectTrailingSlash := true,
        trees := [{ method := "GET", root := { path := "/", handlers := indexChain } }] } := by
  rfl

theorem reset_WriteHeader_200 :
    responseWriter.reset.WriteHeader 200 = responseWriter.reset := by
  simp [responseWriter.WriteHeader, responseWriter.reset, defaultStatus]

theorem handleIndex_some (g : Globals) (c : Context) (t : Template)
    (ht : mapIndex g.templates "index" = some t) :
    handleIndex g c =
      { globals := g,
        ctx := { c with
          Writer := (t.ExecuteTemplate "layout" [("Title", "Hello World")]).chunks.foldl
            responseWriter.Write (c.Writer.WriteHeader 200) },
        panic := none } := by
  simp [handleIndex, ht]

theorem handleIndex_none (g : Globals) (c : Context)
    (ht : mapIndex g.templates "index" = none) :
    handleIndex g c =
      { globals := g, ctx := { c with Writer := c.Writer.WriteHeader 200 },
        panic := some "runtime error: invalid memory address or nil pointer dereference" } := by
  simp [handleIndex, ht]

theorem getValue_root (hs : List Handler) :
    (node.getValue { path := "/", handlers := hs } "/").handlers = hs := by
  simp [node.getValue]

theorem ServeHTTP_root (g : Globals) (req : Request) (t : Template)
    (hm : req.Method = "GET") (hp : req.Path = "/")
    (ht : mapIndex g.templates "index" = some t) :
    mainRouter.ServeHTTP g req =
      { globals := g,
        ctx := { Request := req,
                 Writer := ((t.ExecuteTemplate "layout" [("Title", "Hello World")]).chunks.foldl
                   responseWriter.Write responseWriter.reset).WriteHeaderNow },
        panic := none } := by
  simp [mainRouter_eq, Engine.ServeHTTP, Engine.handleHTTPRequest, hm, hp, getValue_root,
    indexChain, Next, Logger, Recovery, handleIndex_some _ _ t ht, reset_WriteHeader_200]

theorem response_root (g : Globals) (req : Request) (t : Template)
    (hm : req.Method = "GET") (hp : req.Path = "/")
    (ht : mapIndex g.templates "index" = some t) :
    response (mainRouter.ServeHTTP g req) =
      { Code := 200,
        Body := String.join (t.ExecuteTemplate "layout" [("Title", "Hello World")]).chunks,
        wroteHeader := true } := by
  rw [ServeHTTP_root g req t hm hp ht]
  simp only [response]
  rw [(foldl_Write_then_now _ responseWriter.reset rfl).1]
  exact record_header_writes _ _

theorem mk_eq_iff (l : List Char) (s : String) : (String.mk l = s) ↔ l = s.data := by
  constructor
  · intro h; rw [← h]
  · intro h; rw [h]

theorem slash_length : "/".length = 1 := by decide

/-- Lookup of any path other than `/` in the tree of the one route: no handlers,
and a redirect recommendation exactly for `//` and for the empty path. -/
theorem getValue_root_other (hs : List Handler) (hne : hs ≠ []) (path : String)
    (hp : path ≠ "/") :
    (node.getValue { path := "/", handlers := hs } path).handlers = [] ∧
      (node.getValue { path := "/", handlers := hs } path).tsr =
        decide (path = "//" ∨ path = "") := by
  obtain ⟨data⟩ := path
  have hd : data ≠ ['/'] := fun h => hp (by rw [h])
  match data, hd with
  | [], _ => simp [node.getValue, mk_eq_iff, hne, slash_length]
  | [c], hd =>
    have hc : c ≠ '/' := fun h => hd (by rw [h])
    simp [node.getValue, mk_eq_iff, hne, hc, slash_length]
  | c :: d :: rest, _ =>
    simp [node.getValue, mk_eq_iff, hne, slash_length]
    by_cases hc : c = '/'
    · have he : hs.isEmpty = false := by cases hs <;> simp_all
      cases rest <;> by_cases hd2 : d = '/' <;> simp [hc, he, hd2]
    · simp [hc, mk_eq_iff]

theorem indexChain_ne_nil : indexChain ≠ [] := by
  simp [indexChain]

theorem response_serveError (g : Globals) (req : Request) :
    response (serveError mainRouter g { Request := req, Writer := responseWriter.reset } 404
      "404 page not found") =
      { Code := 404, Body := "404 page not found", wroteHeader := true } := by
  simp [serveError, mainRouter_eq, Next, Logger, Recovery, responseWriter.reset,
    responseWriter.Written, noWritten, response, responseWriter.Write,
    responseWriter.WriteHeaderNow, record, ResponseRecorder.Write,
    ResponseRecorder.WriteHeader, NewRecorder]

theorem response_redirect (g : Globals) (req : Request) :
    response (redirectTrailingSlash g { Request := req, Writer := responseWriter.reset }) =
      { Code := if req.Method = "GET" then 301 else 307, Body := "", wroteHeader := true } := by
  by_cases hm : req.Method = "GET" <;>
  simp [redirectTrailingSlash, hm, responseWriter.reset, responseWriter.WriteHeader,
    defaultStatus, responseWriter.Written, noWritten, response,
    responseWriter.WriteHeaderNow, record, ResponseRecorder.WriteHeader, NewRecorder]

theorem mainRouter_trees :
    mainRouter.trees = [{ method := "GET", root := { path := "/", handlers := indexChain } }] := by
  rfl

theorem ServeHTTP_other_method (g : Globals) (req : Request) (hm : req.Method ≠ "GET") :
    mainRouter.ServeHTTP g req =
      serveError mainRouter g { Request := req, Writer := responseWriter.reset } 404
        "404 page not found" := by
  have hm2 : ¬ "GET" = req.Method := fun h => hm h.symm
  simp [Engine.ServeHTTP, Engine.handleHTTPRequest, mainRouter_trees, hm2]

theorem ServeHTTP_redirect (g : Globals) (req : Request) (hm : req.Method = "GET")
    (hr : req.Path = "//" ∨ req.Path = "") :
    mainRouter.ServeHTTP g req =
      redirectTrailingSlash g { Request := req, Writer := responseWriter.reset } := by
  have hp : req.Path ≠ "/" := by
    rcases hr with h | h <;> rw [h] <;> decide
  obtain ⟨h1, h2⟩ := getValue_root_other indexChain indexChain_ne_nil req.Path hp
  have h3 : (node.getValue { path := "/", handlers := indexChain } req.Path).tsr = true := by
    rw [h2]; simp [hr]
  have hrt : mainRouter.RedirectTrailingSlash = true := rfl
  simp [Engine.ServeHTTP, Engine.handleHTTPRequest, mainRouter_trees, hm, h1, h3, hp, hrt]

theorem ServeHTTP_unmatched (g : Globals) (req : Request) (hm : req.Method = "GET")
    (hp : req.Path ≠ "/") (hr : ¬ (req.Path = "//" ∨ req.Path = "")) :
    mainRouter.ServeHTTP g req =
      serveError mainRouter g { Request := req, Writer := responseWriter.reset } 404
        "404 page not found" := by
  obtain ⟨h1, h2⟩ := getValue_root_other indexChain indexChain_ne_nil req.Path hp
  have h3 : (node.getValue { path := "/", handlers := indexChain } req.Path).tsr = false := by
    rw [h2]; simp [hr]
  simp [Engine.ServeHTTP, Engine.handleHTTPRequest, mainRouter_trees, hm, h1, h3]

/-- Status of every request whose path is not `/`. -/
theorem response_other (g : Globals) (req : Request) (hp : req.Path ≠ "/") :
    (response (mainRouter.ServeHTTP g req)).Code =
      if req.Method = "GET" ∧ (req.Path = "//" ∨ req.Path = "") then 301 else 404 := by
  by_cases hm : req.Method = "GET"
  · by_cases hr : req.Path = "//" ∨ req.Path = ""
    · rw [ServeHTTP_redirect g req hm hr, response_redirect]
      simp [hm, hr]
    · rw [ServeHTTP_unmatched g req hm hp hr, response_serveError]
      simp [hr]
  · rw [ServeHTTP_other_method g req hm, response_serveError]
    simp [hm]

/-! ## Lemmas on startup and on the reachable states -/

theorem main_error (p : Parser) (fs : FileSystem) (portFree : Bool) (e : String)
    (h : ParseFiles p fs templateFiles = Except.error e) :
    main p fs portFree =
      { states := [{ globals := { templates := [] }, router := none, listening := none }],
        panic := some e } := by
  simp only [templateFiles] at h
  simp [main, h, Must]

theorem main_ok (p : Parser) (fs : FileSystem) (t : Template)
    (h : ParseFiles p fs templateFiles = Except.ok t) :
    main p fs true =
      { states :=
          [{ globals := { templates := [] }, router := none, listening := none },
           { globals := { templates := [("index", t)] }, router := none, listening := none },
           { globals := { templates := [("index", t)] }, router := some Default,
             listening := none },
           { globals := { templates := [("index", t)] }, router := some mainRouter,
             listening := none },
           listeningState t],
        panic := none } := by
  simp only [templateFiles] at h
  simp [main, h, Must, mapAssign, mainRouter, listeningState]

theorem main_ok_unbound (p : Parser) (fs : FileSystem) (t : Template)
    (h : ParseFiles p fs templateFiles = Except.ok t) :
    main p fs false =
      { states :=
          [{ globals := { templates := [] }, router := none, listening := none },
           { globals := { templates := [("index", t)] }, router := none, listening := none },
           { globals := { templates := [("index", t)] }, router := some Default,
             listening := none },
           { globals := { templates := [("index", t)] }, router := some mainRouter,
             listening := none }],
        panic := none } := by
  simp only [templateFiles] at h
  simp [main, h, Must, mapAssign, mainRouter]

theorem handleIndex_globals (g : Globals) (c : Context) : (handleIndex g c).globals = g := by
  unfold handleIndex
  split <;> rfl

theorem mapIndex_single (t : Template) : mapIndex [("index", t)] "index" = some t := by
  simp [mapIndex, List.lookup]

theorem ServeHTTP_root_missing (g : Globals) (req : Request)
    (hm : req.Method = "GET") (hp : req.Path = "/")
    (ht : mapIndex g.templates "index" = none) :
    (mainRouter.ServeHTTP g req).globals = g ∧
      response (mainRouter.ServeHTTP g req) = { Code := 500, Body := "", wroteHeader := true } := by
  simp [mainRouter_eq, Engine.ServeHTTP, Engine.handleHTTPRequest, hm, hp, getValue_root,
    indexChain, Next, Logger, Recovery, handleIndex_none _ _ ht, reset_WriteHeader_200,
    AbortWithStatus, responseWriter.reset, responseWriter.WriteHeader, defaultStatus,
    responseWriter.Written, noWritten, response, responseWriter.WriteHeaderNow, record,
    ResponseRecorder.WriteHeader, NewRecorder]

theorem ServeHTTP_globals (g : Globals) (req : Request) :
    (mainRouter.ServeHTTP g req).globals = g := by
  by_cases hp : req.Path = "/"
  · by_cases hm : req.Method = "GET"
    · cases ht : mapIndex g.templates "index" with
      | none => exact (ServeHTTP_root_missing g req hm hp ht).1
      | some t => rw [ServeHTTP_root g req t hm hp ht]
    · rw [ServeHTTP_other_method g req hm]
      simp [serveError, mainRouter_eq, Next, Logger, Recovery, responseWriter.reset,
        responseWriter.Written, noWritten]
  · by_cases hm : req.Method = "GET"
    · by_cases hr : req.Path = "//" ∨ req.Path = ""
      · rw [ServeHTTP_redirect g req hm hr]; rfl
      · rw [ServeHTTP_unmatched g req hm hp hr]
        simp [serveError, mainRouter_eq, Next, Logger, Recovery, responseWriter.reset,
          responseWriter.Written, noWritten]
    · rw [ServeHTTP_other_method g req hm]
      simp [serveError, mainRouter_eq, Next, Logger, Recovery, responseWriter.reset,
        responseWriter.Written, noWritten]

theorem serve_listeningState (t : Template) (req : Request) :
    serve (listeningState t) req =
      (listeningState t, some (response (mainRouter.ServeHTTP { templates := [("index", t)] } req))) := by
  simp [serve, listeningState, ServeHTTP_globals]

/-- Every reachable state is the listening state of the template that
`ParseFiles` returned. -/
theorem Reachable_eq (p : Parser) (fs : FileSystem) (s : Process) (h : Reachable p fs s) :
    ∃ t, ParseFiles p fs templateFiles = Except.ok t ∧ s = listeningState t := by
  induction h with
  | started s hpanic hlast =>
    cases hload : ParseFiles p fs templateFiles with
    | error e =>
      rw [main_error p fs true e hload] at hpanic
      simp at hpanic
    | ok t =>
      rw [main_ok p fs t hload] at hlast
      refine ⟨t, rfl, ?_⟩
      simpa using hlast.symm
  | served s req _ ih =>
    obtain ⟨t, hload, hs⟩ := ih
    refine ⟨t, hload, ?_⟩
    rw [hs, serve_listeningState]

theorem sample_load : ParseFiles sampleParser sampleFiles templateFiles = Except.ok greeting := by
  rfl

theorem sample_reachable : Reachable sampleParser sampleFiles (listeningState greeting) := by
  apply Reachable.started
  · rw [main_ok sampleParser sampleFiles greeting sample_load]
  · rw [main_ok sampleParser sampleFiles greeting sample_load]
    rfl

/-! ## The claims -/

/-- C1: for every GET request to the path `/` served by the router that `main`
builds, and for every template store whose `index` entry exists, the status of
the response is 200. -/
theorem get_root_status_200 (g : Globals) (t : Template) (req : Request)
    (hm : req.Method = "GET") (hp : req.Path = "/")
    (ht : mapIndex g.templates "index" = some t) :
    (response (mainRouter.ServeHTTP g req)).Code = 200 := by
  rw [response_root g req t hm hp ht]

/-- Instance of C1: the request of the test against a store holding `greeting`. -/
theorem get_root_status_200_witness :
    getRoot.Method = "GET" ∧ getRoot.Path = "/" ∧
      mapIndex [("index", greeting)] "index" = some greeting ∧
      (response (mainRouter.ServeHTTP { templates := [("index", greeting)] } getRoot)).Code = 200 :=
  ⟨rfl, rfl, mapIndex_single greeting,
    get_root_status_200 { templates := [("index", greeting)] } greeting getRoot rfl rfl
      (mapIndex_single greeting)⟩

/-- C2 as stated fails: with an `index` entry whose execution stops after the
opening of the document, the body of the response to GET `/` does not contain
`Hello World`. -/
theorem body_without_greeting :
    getRoot.Method = "GET" ∧ getRoot.Path = "/" ∧
      (response (mainRouter.ServeHTTP { templates := [("index", truncated)] } getRoot)).Body =
        "<html><head><title>" ∧
      Contains
        (response (mainRouter.ServeHTTP { templates := [("index", truncated)] } getRoot)).Body
        "Hello World" = false := by
  rw [response_root { templates := [("index", truncated)] } getRoot truncated rfl rfl
    (mapIndex_single truncated)]
  refine ⟨rfl, rfl, ?_, ?_⟩ <;> decide

/-- C2, amended: for every GET request to `/` and every store whose `index`
entry, executed on the block `layout` with Title = `Hello World`, writes output
that contains `Hello World`, the body of the response contains `Hello World`. -/
theorem body_contains_greeting (g : Globals) (t : Template) (req : Request)
    (hm : req.Method = "GET") (hp : req.Path = "/")
    (ht : mapIndex g.templates "index" = some t)
    (hout : Contains
      (String.join (t.ExecuteTemplate "layout" [("Title", "Hello World")]).chunks)
      "Hello World" = true) :
    Contains (response (mainRouter.ServeHTTP g req)).Body "Hello World" = true := by
  rw [response_root g req t hm hp ht]
  exact hout

/-- Instance of the amended C2: the template `greeting` prints its Title. -/
theorem body_contains_greeting_witness :
    Contains (String.join (greeting.ExecuteTemplate "layout" [("Title", "Hello World")]).chunks)
        "Hello World" = true ∧
      Contains
        (response (mainRouter.ServeHTTP { templates := [("index", greeting)] } getRoot)).Body
        "Hello World" = true :=
  ⟨by decide,
    body_contains_greeting { templates := [("index", greeting)] } greeting getRoot rfl rfl
      (mapIndex_single greeting) (by decide)⟩

/-- C3: for every template store and every request, the status of the writer
after `handleIndex` is 200. When the store has an `index` entry, then for every
outcome of its execution (any chunks written, with or without an error)
`handleIndex` returns normally with a result built from the written chunks alone
(the error is not used), the header 200 is forwarded before the first chunk of
the body, and the response to GET `/` has status 200. When the store has no
`index` entry the call has no outcome: nothing is forwarded by the handler. -/
theorem status_200_before_body (g : Globals) (req : Request) :
    (handleIndex g { Request := req, Writer := responseWriter.reset }).ctx.Writer.status = 200 ∧
      match mapIndex g.templates "index" with
      | some t =>
        handleIndex g { Request := req, Writer := responseWriter.reset } =
            { globals := g,
              ctx := { Request := req,
                       Writer :=
                         (t.ExecuteTemplate "layout" [("Title", "Hello World")]).chunks.foldl
                           responseWriter.Write responseWriter.reset },
              panic := none } ∧
          (handleIndex g
              { Request := req, Writer := responseWriter.reset }).ctx.Writer.ResponseWriter =
            (match (t.ExecuteTemplate "layout" [("Title", "Hello World")]).chunks with
              | [] => []
              | d :: rest => WireEvent.WriteHeader 200 :: (d :: rest).map WireEvent.Write) ∧
          (response (mainRouter.ServeHTTP g { req with Method := "GET", Path := "/" })).Code = 200
      | none =>
        (handleIndex g
          { Request := req, Writer := responseWriter.reset }).ctx.Writer.ResponseWriter = [] := by
  cases ht : mapIndex g.templates "index" with
  | none =>
    have hh := handleIndex_none g { Request := req, Writer := responseWriter.reset } ht
    rw [reset_WriteHeader_200] at hh
    simp only []
    rw [hh]
    exact ⟨rfl, rfl⟩
  | some t =>
    have hh := handleIndex_some g { Request := req, Writer := responseWriter.reset } t ht
    rw [reset_WriteHeader_200] at hh
    simp only []
    refine ⟨?_, hh, ?_, ?_⟩
    · rw [hh]
      cases hc : (t.ExecuteTemplate "layout" [("Title", "Hello World")]).chunks with
      | nil => rfl
      | cons d rest => exact (foldl_Write_unsent d rest responseWriter.reset rfl).2.1
    · rw [hh]
      cases hc : (t.ExecuteTemplate "layout" [("Title", "Hello World")]).chunks with
      | nil => rfl
      | cons d rest => exact (foldl_Write_unsent d rest responseWriter.reset rfl).1
    · rw [response_root g { req with Method := "GET", Path := "/" } t rfl rfl ht]

/-- C4: if either template file is missing or fails to parse, `ParseFiles`
fails, `template.Must` turns the failure into a panic that ends `main`, and in
no state of that execution has the router been created or the listener been
started, so no request is answered. In every execution of `main`, a state in
which the listener is bound has the `index` template loaded. -/
theorem startup_fails_without_templates (p : Parser) (fs : FileSystem) (portFree : Bool)
    (h : fs "templates/layout.html" = none ∨
      fs "templates/index.html" = none ∨
      (∃ s e, fs "templates/layout.html" = some s ∧
        p.Parse none (Base "templates/layout.html") s = Except.error e) ∨
      (∃ s1 t1 s2 e, fs "templates/layout.html" = some s1 ∧
        p.Parse none (Base "templates/layout.html") s1 = Except.ok t1 ∧
        fs "templates/index.html" = some s2 ∧
        p.Parse (some t1) (Base "templates/index.html") s2 = Except.error e)) :
    (∃ e, ParseFiles p fs ["templates/layout.html", "templates/index.html"] = Except.error e ∧
        (main p fs portFree).panic = some e) ∧
      (∀ s ∈ (main p fs portFree).states,
        s.router = none ∧ s.listening = none ∧ ∀ req, (serve s req).2 = none) ∧
      (∀ (p' : Parser) (fs' : FileSystem) (b : Bool), ∀ s ∈ (main p' fs' b).states,
        s.listening ≠ none → ∃ t, mapIndex s.globals.templates "index" = some t) := by
  have hfail : ∃ e, ParseFiles p fs templateFiles = Except.error e := by
    rcases h with h | h | ⟨s, e, h1, h2⟩ | ⟨s1, t1, s2, e, h1, h2, h3, h4⟩
    · exact ⟨_, by simp [ParseFiles, parseFiles, templateFiles, h]; rfl⟩
    · cases h1 : fs "templates/layout.html" with
      | none => exact ⟨_, by simp [ParseFiles, parseFiles, templateFiles, h1]; rfl⟩
      | some s =>
        cases h2 : p.Parse none (Base "templates/layout.html") s with
        | error e => exact ⟨e, by simp [ParseFiles, parseFiles, templateFiles, h1, h2]⟩
        | ok t1 => exact ⟨_, by simp [ParseFiles, parseFiles, templateFiles, h1, h2, h]; rfl⟩
    · exact ⟨e, by simp [ParseFiles, parseFiles, templateFiles, h1, h2]⟩
    · exact ⟨e, by simp [ParseFiles, parseFiles, templateFiles, h1, h2, h3, h4]⟩
  obtain ⟨e, he⟩ := hfail
  refine ⟨⟨e, he, ?_⟩, ?_, ?_⟩
  · rw [main_error p fs portFree e he]
  · rw [main_error p fs portFree e he]
    intro s hs
    simp only [List.mem_singleton] at hs
    subst hs
    exact ⟨rfl, rfl, fun _ => rfl⟩
  · intro p' fs' b s hs hl
    cases hload : ParseFiles p' fs' templateFiles with
    | error e' =>
      rw [main_error p' fs' b e' hload] at hs
      simp only [List.mem_singleton] at hs
      subst hs
      exact absurd rfl hl
    | ok t =>
      cases b with
      | true =>
        rw [main_ok p' fs' t hload] at hs
        simp only [List.mem_cons, List.mem_singleton, List.not_mem_nil, or_false] at hs
        rcases hs with hs | hs | hs | hs | hs <;> subst hs
        · exact absurd rfl hl
        · exact absurd rfl hl
        · exact absurd rfl hl
        · exact absurd rfl hl
        · exact ⟨t, mapIndex_single t⟩
      | false =>
        rw [main_ok_unbound p' fs' t hload] at hs
        simp only [List.mem_cons, List.mem_singleton, List.not_mem_nil, or_false] at hs
        rcases hs with hs | hs | hs | hs <;> subst hs <;> exact absurd rfl hl

/-- Instance of C4: no file at all. -/
theorem startup_fails_without_templates_witness :
    noFiles "templates/layout.html" = none ∧
      (main sampleParser noFiles true).panic =
        some "open templates/layout.html: no such file or directory" ∧
      (∀ s ∈ (main sampleParser noFiles true).states, s.router = none ∧ s.listening = none ∧
        ∀ req, (serve s req).2 = none) :=
  ⟨rfl, rfl,
    (startup_fails_without_templates sampleParser noFiles true (Or.inl rfl)).2.1⟩

/-- C5 as stated fails: the GET request for the path `//`, which is not `/`,
is answered with the redirect status 301, not with 404. -/
theorem double_slash_redirects :
    getDoubleSlash.Path ≠ "/" ∧
      (response (mainRouter.ServeHTTP { templates := [("index", greeting)] } getDoubleSlash)).Code =
        301 := by
  refine ⟨by decide, ?_⟩
  rw [ServeHTTP_redirect _ getDoubleSlash rfl (Or.inl rfl), response_redirect]
  rfl

/-- C5, amended: every request whose path is not `/` is answered with status
404 by the router that `main` builds, except a GET request whose path is `//` or
empty, which is answered with the redirect status 301. -/
theorem other_paths_status (g : Globals) (req : Request) (hp : req.Path ≠ "/") :
    (response (mainRouter.ServeHTTP g req)).Code =
      if req.Method = "GET" ∧ (req.Path = "//" ∨ req.Path = "") then 301 else 404 :=
  response_other g req hp

/-- Instance of the amended C5: GET `/nonexistent` is answered 404. -/
theorem other_paths_status_witness :
    getNonexistent.Path ≠ "/" ∧
      (response (mainRouter.ServeHTTP { templates := [("index", greeting)] } getNonexistent)).Code =
        404 :=
  ⟨by decide,
    (other_paths_status { templates := [("index", greeting)] } getNonexistent (by decide)).trans
      (by decide)⟩

/-- C6: for fixed template files, any two GET requests to `/`, served in any
two states the running server can reach (after any requests whatever), get a
response, and the two responses have the same status and the same body. -/
theorem repeated_requests_identical (p : Parser) (fs : FileSystem) (s1 s2 : Process)
    (req1 req2 : Request) (h1 : Reachable p fs s1) (h2 : Reachable p fs s2)
    (hm1 : req1.Method = "GET") (hp1 : req1.Path = "/")
    (hm2 : req2.Method = "GET") (hp2 : req2.Path = "/") :
    (serve s1 req1).2 = (serve s2 req2).2 ∧
      ∃ r, (serve s1 req1).2 = some r ∧ r.Code = 200 := by
  obtain ⟨t1, hl1, hs1⟩ := Reachable_eq p fs s1 h1
  obtain ⟨t2, hl2, hs2⟩ := Reachable_eq p fs s2 h2
  have ht : t1 = t2 := by
    rw [hl1] at hl2
    exact Except.ok.inj hl2
  subst ht
  rw [hs1, hs2, serve_listeningState, serve_listeningState]
  simp only []
  rw [response_root _ req1 t1 hm1 hp1 (mapIndex_single t1),
    response_root _ req2 t1 hm2 hp2 (mapIndex_single t1)]
  exact ⟨rfl, _, rfl, rfl⟩

/-- Instance of C6: the first request after startup and a request served after it. -/
theorem repeated_requests_identical_witness :
    Reachable sampleParser sampleFiles (listeningState greeting) ∧
      Reachable sampleParser sampleFiles (serve (listeningState greeting) getNonexistent).1 ∧
      (serve (listeningState greeting) getRoot).2 =
        (serve (serve (listeningState greeting) getNonexistent).1 getRootBusy).2 :=
  ⟨sample_reachable, Reachable.served _ getNonexistent sample_reachable,
    (repeated_requests_identical sampleParser sampleFiles (listeningState greeting)
      (serve (listeningState greeting) getNonexistent).1 getRoot getRootBusy sample_reachable
      (Reachable.served _ getNonexistent sample_reachable) rfl rfl rfl rfl).1⟩

/-- C7: `handleIndex` does not inspect the request. For a fixed template store,
any two requests routed to it (method GET, path `/`), whatever their query
strings, headers and bodies, get responses with the same status and the same
body; and started on the same writer, `handleIndex` leaves the same writer, the
same package variables and the same panic state for any two requests. -/
theorem request_not_inspected (g : Globals) (req1 req2 : Request)
    (hm1 : req1.Method = "GET") (hp1 : req1.Path = "/")
    (hm2 : req2.Method = "GET") (hp2 : req2.Path = "/") :
    response (mainRouter.ServeHTTP g req1) = response (mainRouter.ServeHTTP g req2) ∧
      ∀ w : responseWriter,
        (handleIndex g { Request := req1, Writer := w }).ctx.Writer =
            (handleIndex g { Request := req2, Writer := w }).ctx.Writer ∧
          (handleIndex g { Request := req1, Writer := w }).globals =
            (handleIndex g { Request := req2, Writer := w }).globals ∧
          (handleIndex g { Request := req1, Writer := w }).panic =
            (handleIndex g { Request := req2, Writer := w }).panic := by
  constructor
  · cases ht : mapIndex g.templates "index" with
    | none =>
      rw [(ServeHTTP_root_missing g req1 hm1 hp1 ht).2,
        (ServeHTTP_root_missing g req2 hm2 hp2 ht).2]
    | some t =>
      rw [response_root g req1 t hm1 hp1 ht, response_root g req2 t hm2 hp2 ht]
  · intro w
    cases ht : mapIndex g.templates "index" with
    | none => simp [handleIndex_none _ _ ht]
    | some t => simp [handleIndex_some _ _ t ht]

/-- Instance of C7: a bare request and one with query, header and body. -/
theorem request_not_inspected_witness :
    getRoot.RawQuery ≠ getRootBusy.RawQuery ∧ getRoot.Header ≠ getRootBusy.Header ∧
      getRoot.Body ≠ getRootBusy.Body ∧
      response (mainRouter.ServeHTTP { templates := [("index", greeting)] } getRoot) =
        response (mainRouter.ServeHTTP { templates := [("index", greeting)] } getRootBusy) :=
  ⟨by decide, by decide, by decide,
    (request_not_inspected { templates := [("index", greeting)] } getRoot getRootBusy
      rfl rfl rfl rfl).1⟩

/-- C8: the template store is read-only after startup. When `ParseFiles`
succeeds with `t`, the keys of the map over the states of `main` are: none at
first, then `index` alone from the single assignment on; every state the
running server reaches holds exactly the entry `index` with `t`; serving a
request leaves the map as it is; and every invocation of `handleIndex`, on any
store and any context, returns the package variables unchanged. -/
theorem templates_read_only (p : Parser) (fs : FileSystem) (t : Template) (s : Process)
    (req : Request) (g : Globals) (c : Context)
    (hload : ParseFiles p fs ["templates/layout.html", "templates/index.html"] = Except.ok t)
    (hs : Reachable p fs s) :
    (main p fs true).states.map (fun st => mapKeys st.globals.templates) =
        [[], ["index"], ["index"], ["index"], ["index"]] ∧
      s.globals.templates = [("index", t)] ∧
      (serve s req).1.globals.templates = s.globals.templates ∧
      (handleIndex g c).globals = g := by
  obtain ⟨t', hl, hst⟩ := Reachable_eq p fs s hs
  have ht : t' = t := by
    have hl2 : ParseFiles p fs templateFiles = Except.ok t := hload
    rw [hl] at hl2
    exact Except.ok.inj hl2
  subst ht
  refine ⟨?_, ?_, ?_, handleIndex_globals g c⟩
  · rw [main_ok p fs t' hl]
    rfl
  · rw [hst]; rfl
  · rw [hst, serve_listeningState]

/-- Instance of C8: the sample files, after one request, and a handler run on a
store without entry. -/
theorem templates_read_only_witness :
    ParseFiles sampleParser sampleFiles ["templates/layout.html", "templates/index.html"] =
        Except.ok greeting ∧
      Reachable sampleParser sampleFiles (listeningState greeting) ∧
      (serve (listeningState greeting) getRoot).1.globals.templates =
        (listeningState greeting).globals.templates ∧
      (handleIndex { templates := [] }
        { Request := getRoot, Writer := responseWriter.reset }).globals = { templates := [] } :=
  ⟨sample_load, sample_reachable,
    (templates_read_only sampleParser sampleFiles greeting (listeningState greeting) getRoot
      { templates := [] } { Request := getRoot, Writer := responseWriter.reset }
      sample_load sample_reachable).2.2.1,
    (templates_read_only sampleParser sampleFiles greeting (listeningState greeting) getRoot
      { templates := [] } { Request := getRoot, Writer := responseWriter.reset }
      sample_load sample_reachable).2.2.2⟩

/-- C9: in every state reachable after the startup of `main` succeeds, the
lookup of `index` that `handleIndex` performs returns a template, and
`handleIndex` started in that state on any context does not panic: the nil case
is not reached at request time. -/
theorem index_present_when_serving (p : Parser) (fs : FileSystem) (s : Process) (c : Context)
    (hs : Reachable p fs s) :
    (∃ t, mapIndex s.globals.templates "index" = some t) ∧
      (handleIndex s.globals c).panic = none := by
  obtain ⟨t, _, hst⟩ := Reachable_eq p fs s hs
  have ht : mapIndex s.globals.templates "index" = some t := by
    rw [hst]; exact mapIndex_single t
  exact ⟨⟨t, ht⟩, by rw [handleIndex_some _ _ t ht]⟩

/-- Instance of C9: the state after the sample startup and two requests. -/
theorem index_present_when_serving_witness :
    Reachable sampleParser sampleFiles
        (serve (serve (listeningState greeting) getRoot).1 getDoubleSlash).1 ∧
      (handleIndex (serve (serve (listeningState greeting) getRoot).1 getDoubleSlash).1.globals
        { Request := getRoot, Writer := responseWriter.reset }).panic = none :=
  ⟨Reachable.served _ getDoubleSlash (Reachable.served _ getRoot sample_reachable),
    (index_present_when_serving sampleParser sampleFiles _
      { Request := getRoot, Writer := responseWriter.reset }
      (Reachable.served _ getDoubleSlash (Reachable.served _ getRoot sample_reachable))).2⟩

/-- C10: for every store with an `index` entry `t` and every request routed to
`handleIndex`, the body of the response is exactly what the execution of the
block `layout` of `t`, applied to the mapping with the single key Title and the
value `Hello World`, writes (in particular when that execution succeeds); the
calls `handleIndex` forwards after the header are these chunks and nothing else;
and the block name and the data are the same for every request. -/
theorem body_is_layout_rendering (g : Globals) (t : Template) (req : Request)
    (hm : req.Method = "GET") (hp : req.Path = "/")
    (ht : mapIndex g.templates "index" = some t) :
    (response (mainRouter.ServeHTTP g req)).Body =
        String.join (t.ExecuteTemplate "layout" [("Title", "Hello World")]).chunks ∧
      (mainRouter.ServeHTTP g req).ctx.Writer.ResponseWriter =
        WireEvent.WriteHeader 200 ::
          (t.ExecuteTemplate "layout" [("Title", "Hello World")]).chunks.map WireEvent.Write := by
  refine ⟨by rw [response_root g req t hm hp ht], ?_⟩
  rw [ServeHTTP_root g req t hm hp ht]
  exact (foldl_Write_then_now _ responseWriter.reset rfl).1

/-- Instance of C10: the template `greeting` and the request of the test. -/
theorem body_is_layout_rendering_witness :
    (greeting.ExecuteTemplate "layout" [("Title", "Hello World")]).err = none ∧
      (response (mainRouter.ServeHTTP { templates := [("index", greeting)] } getRoot)).Body =
        "<h1>Hello World</h1>" :=
  ⟨rfl,
    (body_is_layout_rendering { templates := [("index", greeting)] } greeting getRoot rfl rfl
      (mapIndex_single greeting)).1.trans (by decide)⟩

end GoStack
